import Mathlib

/-!
Verification of the zipscene-api-client authenticating RPC core.

This file gives a shallow embedding of the two client implementations the
claims cite:

* `ZipsceneRPCClient` (source file part_005): constructor, `authenticate`,
  `createBearerHeader`, `getUrl`, `request` (a pasync.whilst retry loop) and
  `requestStream` (a pasync.whilst wrapper around a line-splitting pipe).
* `JsonRPCApiClient` (source file part_003): constructor, `getUrl`,
  `_rethrowAuthorizationError`, `authenticate` and `requestStream`
  (a recursive attempt function with a single authentication retry).

Asynchrony is modelled by explicit state passing: a promise in flight is a
state flag plus an identity, network responses come from environment
functions (`Nat -> ...`) indexed by the order of the calls, and the
unbounded pasync.whilst loops are run on explicit fuel, with a distinguished
outcome when the fuel is exhausted while the loop condition still holds.
JSON payloads of data envelopes are abstracted to opaque `Nat` values; error
envelopes keep their string `code` and `message` fields, which is all the
client code inspects.
-/

/-- A JSON-RPC error object as the client sees it: a string code and a
message.  XError instances in the source carry the same two fields. -/
structure RPCError where
  code : String
  message : String := ""
  deriving Repr, DecidableEq

/-- JavaScript truthiness of an optional string: `undefined`, `null` and the
empty string are falsy, every other string is truthy. -/
def truthy : Option String → Bool
  | none => false
  | some s => !(s == "")

/-- The base64 alphabet, as used by Node `Buffer.toString('base64')`. -/
def base64Table : List Char :=
  [ 'A', 'B', 'C', 'D', 'E', 'F', 'G', 'H', 'I', 'J', 'K', 'L', 'M',
    'N', 'O', 'P', 'Q', 'R', 'S', 'T', 'U', 'V', 'W', 'X', 'Y', 'Z',
    'a', 'b', 'c', 'd', 'e', 'f', 'g', 'h', 'i', 'j', 'k', 'l', 'm',
    'n', 'o', 'p', 'q', 'r', 's', 't', 'u', 'v', 'w', 'x', 'y', 'z',
    '0', '1', '2', '3', '4', '5', '6', '7', '8', '9', '+', '/' ]

/-- Character of the base64 alphabet at the given index. -/
def b64Char (n : Nat) : Char := base64Table.getD n 'A'

/-- RFC 4648 base64 encoding of a byte list, with padding.  This models the
Node primitive `new Buffer(s).toString('base64')` used by the source. -/
def base64Encode : List Nat → String
  | [] => ""
  | [b1] =>
    String.mk [b64Char (b1 / 4), b64Char (b1 % 4 * 16), '=', '=']
  | [b1, b2] =>
    String.mk [b64Char (b1 / 4), b64Char (b1 % 4 * 16 + b2 / 16),
      b64Char (b2 % 16 * 4), '=']
  | b1 :: b2 :: b3 :: rest =>
    String.mk [b64Char (b1 / 4), b64Char (b1 % 4 * 16 + b2 / 16),
      b64Char (b2 % 16 * 4 + b3 / 64), b64Char (b3 % 64)]
      ++ base64Encode rest

/-- UTF-8 encoding of one character, as a list of byte values. -/
def utf8Bytes (c : Char) : List Nat :=
  let n := c.toNat
  if n < 128 then [n]
  else if n < 2048 then [192 + n / 64, 128 + n % 64]
  else if n < 65536 then [224 + n / 4096, 128 + n / 64 % 64, 128 + n % 64]
  else [240 + n / 262144, 128 + n / 4096 % 64, 128 + n / 64 % 64, 128 + n % 64]

/-- UTF-8 bytes of a string, modelling `new Buffer(accessToken)`. -/
def strBytes (s : String) : List Nat := (s.data.map utf8Bytes).flatten

/-- The three authentication methods of part_005, chosen at construction:
email+password credentials, a caller-supplied access token, or no auth. -/
inductive AuthMethod where
  | credentials
  | token
  | noAuth
  deriving Repr, DecidableEq

/-- Constructor settings of `ZipsceneRPCClient` (part_005). -/
structure Settings where
  server : Option String := none
  authServer : Option String := none
  email : Option String := none
  username : Option String := none
  password : Option String := none
  userNamespaceId : Option String := none
  accessToken : Option String := none
  noAuth : Bool := false
  routeVersion : Option Nat := none
  authRouteVersion : Option Nat := none
  deriving Repr, DecidableEq

/-- The mutable state of one `ZipsceneRPCClient` instance (part_005).
`authPromise` holds the identity of the promise stored in `this.authPromise`
(for the credentials method, the id of the login request it wraps), and
`authPromisePending` mirrors `this.authPromisePending`. -/
structure ZipsceneRPCClient where
  server : String
  routeVersion : Nat := 2
  authServer : String
  authRouteVersion : Nat := 1
  authMethod : AuthMethod
  email : Option String := none
  password : Option String := none
  userNamespaceId : Option String := none
  originalAccessToken : Option String := none
  requestCounter : Nat := 0
  authRequestCounter : Nat := 0
  accessToken : Option String := none
  accessTokenExpired : Bool := false
  authPromise : Option Nat := none
  authPromisePending : Bool := false
  deriving Repr, DecidableEq

/-- Error thrown when `settings.server` is missing (part_005 line 51). -/
def serverMissingErr : RPCError := ⟨"invalid_argument", "server is not configured"⟩

/-- Error thrown when `settings.authServer` is missing (part_005 line 56). -/
def authServerMissingErr : RPCError := ⟨"invalid_argument", "authServer is not configured"⟩

/-- Error thrown when no credential variant applies (part_005 line 73). -/
def noApiCredsErr : RPCError := ⟨"invalid_argument", "No API credentials configured"⟩

/-- The `ZipsceneRPCClient` constructor (part_005 lines 44-84).  `username`
is aliased onto `email`; the server and the auth server are both required;
the credential variant is selected in order: email+password, access token,
noAuth; otherwise construction fails. -/
def ZipsceneRPCClient.construct (settings : Settings) : Except RPCError ZipsceneRPCClient :=
  let email := if truthy settings.username then settings.username else settings.email
  if !(truthy settings.server) then .error serverMissingErr
  else if !(truthy settings.authServer) then .error authServerMissingErr
  else
    let base : AuthMethod → ZipsceneRPCClient := fun m =>
      { server := settings.server.getD ""
        routeVersion := (settings.routeVersion.filter (fun n => n != 0)).getD 2
        authServer := settings.authServer.getD ""
        authRouteVersion := (settings.authRouteVersion.filter (fun n => n != 0)).getD 1
        authMethod := m }
    if truthy email && truthy settings.password then
      .ok { base .credentials with
              email := email, password := settings.password,
              userNamespaceId := settings.userNamespaceId }
    else if truthy settings.accessToken then
      .ok { base .token with originalAccessToken := settings.accessToken }
    else if settings.noAuth then
      .ok (base .noAuth)
    else
      .error noApiCredsErr

/-- The URL builder of part_005 (lines 177-186): the auth server is selected
by the flag, and the route version too unless `legacyAuth` is set (never set
for this class, so the non-legacy branch is taken). -/
def ZipsceneRPCClient.getUrl (auth : Bool) (c : ZipsceneRPCClient) : String :=
  let server := if auth then c.authServer else c.server
  let routeVersion := if auth then c.authRouteVersion else c.routeVersion
  server ++ "/v" ++ toString routeVersion ++ "/jsonrpc"

/-- `createBearerHeader` (part_005 lines 196-199): a falsy token yields no
Authorization header; otherwise the header value is the string "Bearer "
followed by the base64 encoding of the token bytes. -/
def ZipsceneRPCClient.createBearerHeader (accessToken : Option String) : Option String :=
  if !(truthy accessToken) then none
  else some ("Bearer " ++ base64Encode (strBytes (accessToken.getD "")))

/-- What the synchronous part of `authenticate` (part_005 lines 93-167)
returns to its caller before any network round trip settles. -/
inductive AuthStart where
  /-- Line 100: an in-flight authentication promise was returned as is. -/
  | samePending (id : Nat)
  /-- Lines 101-102: an already resolved promise (cached token, or no token
  for the noAuth method). -/
  | immediateToken (t : Option String)
  /-- Token method, token not marked expired: head resolves with the
  originally supplied token (line 112). -/
  | headToken (t : String)
  /-- Token method, token marked expired: head rejects (lines 108-110). -/
  | headTokenExpired
  /-- Credentials method: a login request with the given JSON-RPC id was
  issued (lines 114-147). -/
  | headLogin (id : Nat)
  /-- Line 149: unreachable fallback, a rejected promise is returned. -/
  | rejectNoCreds
  deriving Repr, DecidableEq

/-- The rejection of the token-method head when the provided token is marked
expired (part_005 line 109). -/
def providedTokenExpiredErr : RPCError := ⟨"token_expired", "Provided access token has expired"⟩

/-- The rejection of the unreachable no-credentials fallback (part_005
line 150). -/
def noCredsInternalErr : RPCError := ⟨"internal_error", "Tried to authenticate with no credentials provided"⟩

/-- Synchronous part of `authenticate(expired)` (part_005 lines 93-167):
apply the expired-flag resets, return the pending promise if one is in
flight, short-circuit on a cached token or the noAuth method, otherwise
build the promise head for the active credential variant, marking the
promise pending and storing its identity. -/
def ZipsceneRPCClient.authenticateStart (expired : Bool) (c : ZipsceneRPCClient) :
    ZipsceneRPCClient × AuthStart :=
  let c := if expired then
      { c with accessTokenExpired := true, accessToken := none, authPromise := none }
    else c
  if c.authPromise.isSome && c.authPromisePending then
    (c, .samePending (c.authPromise.getD 0))
  else if truthy c.accessToken then
    (c, .immediateToken c.accessToken)
  else
    match c.authMethod with
    | .noAuth => (c, .immediateToken none)
    | .token =>
      let c := { c with authPromisePending := true }
      if c.accessTokenExpired then
        ({ c with authPromise := some c.authRequestCounter }, .headTokenExpired)
      else
        ({ c with authPromise := some c.authRequestCounter },
          .headToken (c.originalAccessToken.getD ""))
    | .credentials =>
      let c := { c with authPromisePending := true }
      let id := c.authRequestCounter
      ({ c with authRequestCounter := id + 1, authPromise := some id }, .headLogin id)

/-- The continuation attached to the authentication head (part_005 lines
154-165): on success store the token and clear the expired and pending
flags, on failure clear the token and the pending flag and rethrow. -/
def ZipsceneRPCClient.settleAuth (r : Except RPCError String) (c : ZipsceneRPCClient) :
    ZipsceneRPCClient × Except RPCError (Option String) :=
  match r with
  | .ok tok =>
    ({ c with accessToken := some tok, accessTokenExpired := false, authPromisePending := false },
      .ok (some tok))
  | .error e =>
    ({ c with accessToken := none, authPromisePending := false }, .error e)

/-- A full sequential run of `authenticate(expired)`: start the operation
and settle it with the login environment when a network round trip (or the
pending promise being awaited) is involved.  `loginEnv i` is the outcome of
the login request with JSON-RPC id `i`. -/
def ZipsceneRPCClient.authenticateRun (expired : Bool)
    (loginEnv : Nat → Except RPCError String) (c : ZipsceneRPCClient) :
    ZipsceneRPCClient × Except RPCError (Option String) :=
  match c.authenticateStart expired with
  | (c1, .samePending id) => c1.settleAuth (loginEnv id)
  | (c1, .immediateToken t) => (c1, .ok t)
  | (c1, .headToken t) => c1.settleAuth (.ok t)
  | (c1, .headTokenExpired) => c1.settleAuth (.error providedTokenExpiredErr)
  | (c1, .headLogin id) => c1.settleAuth (loginEnv id)
  | (c1, .rejectNoCreds) => (c1, .error noCredsInternalErr)

/-- A (non-streaming) JSON-RPC response body: either a result payload
(abstracted to an optional string) or an error object. -/
inductive RPCResponse where
  | result (r : Option String)
  | error (e : RPCError)
  deriving Repr, DecidableEq

/-- `opts.maxRetries || 1` (part_005 line 223): absent or zero (falsy)
means one attempt. -/
def resolveMaxRetries : Option Nat → Nat
  | none => 1
  | some 0 => 1
  | some (n + 1) => n + 1

/-- The loop-carried state of `request` (part_005 lines 223-275), plus two
observation counters: `attempts` counts HTTP POSTs of the JSON-RPC request,
`reauths` counts invocations of `authenticate(true)` from the error branch. -/
structure ReqState where
  client : ZipsceneRPCClient
  maxRetries : Nat
  retryCount : Nat := 0
  requestErr : Option RPCError := none
  requestRes : Option String := none
  success : Bool := false
  attempts : Nat := 0
  reauths : Nat := 0
  deriving Repr, DecidableEq

/-- The `pasync.whilst` test of `request` (part_005 lines 229-231). -/
def requestCond (s : ReqState) : Bool :=
  !s.success && decide (s.retryCount < s.maxRetries)

/-- One execution of the `pasync.whilst` body of `request` (part_005 lines
232-269): authenticate, POST the request, then classify the response.  A
rejection anywhere in the body rejects the whole loop.  `reqEnv n` is the
JSON-RPC response body of the n-th HTTP attempt. -/
def requestBody (noReauth : Bool) (reqEnv : Nat → RPCResponse)
    (loginEnv : Nat → Except RPCError String) (s : ReqState) :
    Except (RPCError × ReqState) ReqState :=
  match ZipsceneRPCClient.authenticateRun false loginEnv s.client with
  | (c1, .error e) => .error (e, { s with client := c1 })
  | (c1, .ok _tok) =>
    let resp := reqEnv s.attempts
    let s1 := { s with client := c1, attempts := s.attempts + 1 }
    match resp with
    | .result r =>
      .ok { s1 with requestErr := none, success := true, requestRes := some (r.getD "") }
    | .error e =>
      if e.code == "token_expired" && !noReauth then
        match ZipsceneRPCClient.authenticateRun true loginEnv s1.client with
        | (c2, .ok _) => .ok { s1 with client := c2, reauths := s1.reauths + 1 }
        | (c2, .error e2) => .error (e2, { s1 with client := c2, reauths := s1.reauths + 1 })
      else
        .ok { s1 with retryCount := s1.retryCount + 1, requestErr := some e }

/-- Result of a `request` run.  The loop state is carried along so that the
attempt and re-authentication counts stay observable. -/
inductive ReqOutcome where
  | ok (result : String) (s : ReqState)
  | err (e : RPCError) (s : ReqState)
  | outOfFuel (s : ReqState)
  deriving Repr, DecidableEq

/-- The continuation after the `pasync.whilst` of `request` resolves
(part_005 lines 271-274): throw the recorded error, else return the
recorded result. -/
def requestFinish (s : ReqState) : ReqOutcome :=
  match s.requestErr with
  | some e => .err e s
  | none => .ok (s.requestRes.getD "") s

/-- The `pasync.whilst` loop of `request`, run on explicit fuel: while the
test holds, run the body; a body rejection rejects the loop. -/
def requestLoop (noReauth : Bool) (reqEnv : Nat → RPCResponse)
    (loginEnv : Nat → Except RPCError String) : Nat → ReqState → ReqOutcome
  | 0, s => if requestCond s then .outOfFuel s else requestFinish s
  | n + 1, s =>
    if requestCond s then
      match requestBody noReauth reqEnv loginEnv s with
      | .ok s1 => requestLoop noReauth reqEnv loginEnv n s1
      | .error (e, s1) => .err e s1
    else requestFinish s

/-- `request(method, params, opts)` (part_005 lines 215-275): bump the
request counter, resolve `maxRetries` and run the retry loop. -/
def ZipsceneRPCClient.request (c : ZipsceneRPCClient) (maxRetries : Option Nat)
    (noReauth : Bool) (reqEnv : Nat → RPCResponse)
    (loginEnv : Nat → Except RPCError String) (fuel : Nat) : ReqOutcome :=
  requestLoop noReauth reqEnv loginEnv fuel
    { client := { c with requestCounter := c.requestCounter + 1 }
      maxRetries := resolveMaxRetries maxRetries }

/-- The loop state a `ReqOutcome` carries. -/
def ReqOutcome.stateOf : ReqOutcome → ReqState
  | .ok _ s => s
  | .err _ s => s
  | .outOfFuel s => s

/-- Number of HTTP attempts of the JSON-RPC request a run performed. -/
def ReqOutcome.attemptsOf (o : ReqOutcome) : Nat := o.stateOf.attempts

/-- Number of forced re-authentications a run performed. -/
def ReqOutcome.reauthsOf (o : ReqOutcome) : Nat := o.stateOf.reauths

/-- The error a run rejected with, if any. -/
def ReqOutcome.errOf : ReqOutcome → Option RPCError
  | .err e _ => some e
  | _ => none

/-- Whether the run exhausted its fuel with the loop condition still true. -/
def ReqOutcome.isOutOfFuel : ReqOutcome → Bool
  | .outOfFuel _ => true
  | _ => false

/-- One parsed line of a streaming response body, after the JSON.parse and
field classification of part_005 lines 318-347: a keep-alive marker, the
`success: true` sentinel, an error envelope, or a data envelope (payload
abstracted to an opaque `Nat`). -/
inductive Line where
  | keepAlive
  | success
  | error (e : RPCError)
  | dataEnt (v : Nat)
  deriving Repr, DecidableEq

/-- The two flags of `requestStream` (part_005 lines 298-299) together with
the sequence of data payloads written to the PassThrough so far.  Both flags
are declared outside the retry loop in the source, so this state threads
through retried attempts unchanged. -/
structure PState where
  isSuccessful : Bool := false
  hasDataOrError : Bool := false
  forwarded : List Nat := []
  deriving Repr, DecidableEq

/-- The internal error thrown when a data line follows the success sentinel
(part_005 line 350). -/
def dataAfterSuccessErr : RPCError := ⟨"internal_error", "Received line of data after success object"⟩

/-- The error thrown when the line stream ends without the success sentinel
(part_005 lines 361-366). -/
def unexpectedEnd5Err : RPCError :=
  ⟨"api_client_error", "Never recieved successful end of data for request stream"⟩

/-- The `through` callback of `requestStream` (part_005 lines 318-358) on
one parsed line: discard keep-alives, flag the sentinel, throw error
envelopes, and forward data (flagging `hasDataOrError` first and rejecting
data that follows the sentinel). -/
def processLine (st : PState) : Line → Except (PState × RPCError) PState
  | .keepAlive => .ok st
  | .success => .ok { st with isSuccessful := true }
  | .error e => .error (st, e)
  | .dataEnt v =>
    let st1 := { st with hasDataOrError := true }
    if st.isSuccessful then .error (st1, dataAfterSuccessErr)
    else .ok { st1 with forwarded := st1.forwarded ++ [v] }

/-- Fold of `processLine` over the lines of one attempt; the first thrown
error aborts the pipe. -/
def processLines (st : PState) : List Line → Except (PState × RPCError) PState
  | [] => .ok st
  | l :: rest =>
    match processLine st l with
    | .ok st1 => processLines st1 rest
    | .error r => .error r

/-- State of one `requestStream` call of part_005: the client, the two
flags plus forwarded data, and observation counters for stream attempts and
forced re-authentications. -/
structure SState where
  client : ZipsceneRPCClient
  ps : PState := {}
  attempts : Nat := 0
  reauths : Nat := 0
  deriving Repr, DecidableEq

/-- One execution of the `pasync.whilst` body of `requestStream` (part_005
lines 303-378): authenticate, stream the lines of this attempt through the
pipe, require the sentinel at end of stream, and apply the catch of lines
368-376: a `token_expired` error (without noReauth) forces a
re-authentication and resolves the body so the loop retries; any other
error sets `hasDataOrError` and rejects. -/
def streamBody (noReauth : Bool) (linesEnv : Nat → List Line)
    (loginEnv : Nat → Except RPCError String) (ss : SState) :
    Except (RPCError × SState) SState :=
  match ZipsceneRPCClient.authenticateRun false loginEnv ss.client with
  | (c1, .error e) => .error (e, { ss with client := c1 })
  | (c1, .ok _tok) =>
    let ss1 := { ss with client := c1, attempts := ss.attempts + 1 }
    let piped : Except (PState × RPCError) PState :=
      match processLines ss1.ps (linesEnv ss.attempts) with
      | .ok st1 => if st1.isSuccessful then .ok st1 else .error (st1, unexpectedEnd5Err)
      | .error r => .error r
    match piped with
    | .ok st1 => .ok { ss1 with ps := st1 }
    | .error (st1, e) =>
      if e.code == "token_expired" && !noReauth then
        match ZipsceneRPCClient.authenticateRun true loginEnv ss1.client with
        | (c2, .ok _) => .ok { ss1 with client := c2, ps := st1, reauths := ss1.reauths + 1 }
        | (c2, .error e2) =>
          .error (e2, { ss1 with client := c2, ps := st1, reauths := ss1.reauths + 1 })
      else
        .error (e, { ss1 with ps := { st1 with hasDataOrError := true } })

/-- Result of a `requestStream` run of part_005: the PassThrough ended
cleanly, was failed with an error, or the retry loop was still running when
the fuel ran out. -/
inductive StreamOutcome where
  | ended (ss : SState)
  | failed (e : RPCError) (ss : SState)
  | outOfFuel (ss : SState)
  deriving Repr, DecidableEq

/-- The `pasync.whilst` wrapper of `requestStream` (part_005 lines 303-386)
on explicit fuel: while no data or error has been seen, run one attempt;
when the loop resolves, end the PassThrough; when it rejects, fail it. -/
def streamWhilst (noReauth : Bool) (linesEnv : Nat → List Line)
    (loginEnv : Nat → Except RPCError String) : Nat → SState → StreamOutcome
  | 0, ss => if !ss.ps.hasDataOrError then .outOfFuel ss else .ended ss
  | n + 1, ss =>
    if !ss.ps.hasDataOrError then
      match streamBody noReauth linesEnv loginEnv ss with
      | .ok ss1 => streamWhilst noReauth linesEnv loginEnv n ss1
      | .error (e, ss1) => .failed e ss1
    else .ended ss

/-- `requestStream(method, params, opts)` (part_005 lines 290-389): bump the
request counter and run the retrying stream loop.  `linesEnv n` is the
parsed line sequence the n-th attempt receives. -/
def ZipsceneRPCClient.requestStream (c : ZipsceneRPCClient) (noReauth : Bool)
    (linesEnv : Nat → List Line) (loginEnv : Nat → Except RPCError String)
    (fuel : Nat) : StreamOutcome :=
  streamWhilst noReauth linesEnv loginEnv fuel
    { client := { c with requestCounter := c.requestCounter + 1 } }

/-- The state a `StreamOutcome` carries. -/
def StreamOutcome.stateOf : StreamOutcome → SState
  | .ended ss => ss
  | .failed _ ss => ss
  | .outOfFuel ss => ss

/-- Data payloads forwarded to the consumer during the run. -/
def StreamOutcome.forwardedOf (o : StreamOutcome) : List Nat := o.stateOf.ps.forwarded

/-- Number of stream attempts (HTTP streaming POSTs) of the run. -/
def StreamOutcome.attemptsOf (o : StreamOutcome) : Nat := o.stateOf.attempts

/-- Number of forced re-authentications of the run. -/
def StreamOutcome.reauthsOf (o : StreamOutcome) : Nat := o.stateOf.reauths

/-- The error the stream was failed with, if any. -/
def StreamOutcome.errOf : StreamOutcome → Option RPCError
  | .failed e _ => some e
  | _ => none

/-- Whether the stream ended cleanly. -/
def StreamOutcome.isEnded : StreamOutcome → Bool
  | .ended _ => true
  | _ => false

/-- Whether the retry loop was still running when the fuel ran out. -/
def StreamOutcome.isOutOfFuel : StreamOutcome → Bool
  | .outOfFuel _ => true
  | _ => false

/-- Constructor settings of `JsonRPCApiClient` (part_003). -/
structure P3Settings where
  server : Option String := none
  authServer : Option String := none
  routeVersion : Option Nat := none
  authRouteVersion : Option Nat := none
  legacyAuth : Bool := false
  email : Option String := none
  username : Option String := none
  password : Option String := none
  userNamespaceId : Option String := none
  accessToken : Option String := none
  refreshToken : Option String := none
  deriving Repr, DecidableEq

/-- The state of one `JsonRPCApiClient` instance (part_003).  `loginCalls`
is an observation counter of login network requests (the `login`,
`auth.password` and `auth.refresh` round trips). -/
structure JsonRPCApiClient where
  server : String
  authServer : String
  routeVersion : Nat := 2
  authRouteVersion : Nat := 1
  legacyAuth : Bool := false
  email : Option String := none
  username : Option String := none
  password : Option String := none
  userNamespaceId : Option String := none
  accessToken : Option String := none
  refreshToken : Option String := none
  requestCounter : Nat := 0
  loginCalls : Nat := 0
  deriving Repr, DecidableEq

/-- Error thrown by the `JsonRPCApiClient` constructor when no server is
configured (part_003 line 54). -/
def p3ServerMissingErr : RPCError := ⟨"invalid_argument", "Server is not configured"⟩

/-- The error code `unexpected_end` registered by part_003 (line 14) and
thrown when a stream ends without its success sentinel (line 370). -/
def p3UnexpectedEndErr : RPCError :=
  ⟨"unexpected_end", "Never recieved successful end of data for request stream"⟩

/-- Wrapping of an underlying failure in `XError(XError.API_CLIENT_ERROR,
cause)`: the code becomes `api_client_error`; the cause is summarized by its
code string. -/
def wrapApiClientError (e : RPCError) : RPCError := ⟨"api_client_error", e.code⟩

/-- The `JsonRPCApiClient` constructor (part_003 lines 40-58): copy the
credential fields, alias `username` onto `email` outside legacy mode,
default the auth server to the request server, default the route versions,
and require a server. -/
def JsonRPCApiClient.construct (settings : P3Settings) : Except RPCError JsonRPCApiClient :=
  let email := if !settings.legacyAuth && truthy settings.username && !(truthy settings.email)
    then settings.username else settings.email
  if !(truthy settings.server) then .error p3ServerMissingErr
  else
    .ok { server := settings.server.getD ""
          authServer := if truthy settings.authServer then settings.authServer.getD ""
            else settings.server.getD ""
          routeVersion := (settings.routeVersion.filter (fun n => n != 0)).getD 2
          authRouteVersion := (settings.authRouteVersion.filter (fun n => n != 0)).getD 1
          legacyAuth := settings.legacyAuth
          email := email
          username := settings.username
          password := settings.password
          userNamespaceId := settings.userNamespaceId
          accessToken := settings.accessToken
          refreshToken := settings.refreshToken }

/-- The URL builder of part_003 (lines 107-115): pick the auth server when
asked; the route version switches to the auth route version only outside
legacy mode. -/
def JsonRPCApiClient.getUrl (auth : Bool) (c : JsonRPCApiClient) : String :=
  let server := if auth then c.authServer else c.server
  let routeVersion := if auth && !c.legacyAuth then c.authRouteVersion else c.routeVersion
  server ++ "/v" ++ toString routeVersion ++ "/jsonrpc"

/-- `_rethrowAuthorizationError` (part_003 lines 280-286): exactly the codes
`token_expired` and `bad_access_token` clear the cached access token and
throw (the boolean result); every other code falls through. -/
def JsonRPCApiClient.rethrowAuthorizationError (e : RPCError) (c : JsonRPCApiClient) :
    JsonRPCApiClient × Bool :=
  if e.code == "token_expired" || e.code == "bad_access_token" then
    ({ c with accessToken := none }, true)
  else (c, false)

/-- A sequential run of `authenticate` of part_003 (lines 67-97), with the
branch order of the source: cached token, legacy refresh (falling back to
legacy login on an auth-coded failure when username+password are present),
legacy login, email login, otherwise reject.  `loginEnv` and `refreshEnv`
give the outcomes of login and `auth.refresh` round trips in order; the
promise-caching of `this.authPromise` (cleared again when the promise
settles) is elided because the runs here are sequential. -/
def JsonRPCApiClient.authenticateRun (loginEnv refreshEnv : Nat → Except RPCError String)
    (c : JsonRPCApiClient) : JsonRPCApiClient × Except RPCError Unit :=
  if truthy c.accessToken then (c, .ok ())
  else if truthy c.refreshToken && c.legacyAuth then
    match refreshEnv c.requestCounter with
    | .ok tok =>
      ({ c with requestCounter := c.requestCounter + 1, accessToken := some tok }, .ok ())
    | .error e =>
      let c1 := { c with requestCounter := c.requestCounter + 1 }
      if (e.code == "token_expired" || e.code == "bad_access_token")
          && truthy c1.username && truthy c1.password then
        match loginEnv c1.requestCounter with
        | .ok tok =>
          ({ c1 with requestCounter := c1.requestCounter + 1, loginCalls := c1.loginCalls + 1,
                     accessToken := some tok, refreshToken := some tok }, .ok ())
        | .error e2 =>
          ({ c1 with requestCounter := c1.requestCounter + 1, loginCalls := c1.loginCalls + 1 },
            .error (wrapApiClientError e2))
      else (c1, .error (wrapApiClientError e))
  else if truthy c.username && truthy c.password && c.legacyAuth then
    match loginEnv c.requestCounter with
    | .ok tok =>
      ({ c with requestCounter := c.requestCounter + 1, loginCalls := c.loginCalls + 1,
                accessToken := some tok, refreshToken := some tok }, .ok ())
    | .error e =>
      ({ c with requestCounter := c.requestCounter + 1, loginCalls := c.loginCalls + 1 },
        .error (wrapApiClientError e))
  else if truthy c.email && truthy c.password && !c.legacyAuth then
    match loginEnv c.requestCounter with
    | .ok tok =>
      ({ c with requestCounter := c.requestCounter + 1, loginCalls := c.loginCalls + 1,
                accessToken := some tok }, .ok ())
    | .error e =>
      ({ c with requestCounter := c.requestCounter + 1, loginCalls := c.loginCalls + 1 },
        .error (wrapApiClientError e))
  else
    (c, .error (wrapApiClientError
      ⟨"api_client_error", "Unable to authenticate or refresh with given parameters"⟩))

/-- Result of processing the lines of one part_003 stream attempt: the
client (its token may have been cleared by `_rethrowAuthorizationError`),
the data entries written this attempt, the final per-attempt counters, and
the thrown error together with its `retry` flag, if any. -/
structure P3ProcRes where
  client : JsonRPCApiClient
  fwd : List Nat
  dataCount : Nat
  isSuccessful : Bool
  thrown : Option (RPCError × Bool)
  deriving Repr, DecidableEq

/-- The `through` callback of part_003 `requestStream` (lines 325-366) over
a line list.  `dataCount` and `isSuccessful` are fresh per attempt.  An
error envelope is rethrown; when it is seen before any data of this attempt
and `_rethrowAuthorizationError` throws on it (an auth code), the error is
marked for retry and the cached token is cleared. -/
def p3processLines (c : JsonRPCApiClient) (dataCount : Nat) (isSuccessful : Bool) :
    List Line → P3ProcRes
  | [] => ⟨c, [], dataCount, isSuccessful, none⟩
  | l :: rest =>
    match l with
    | .keepAlive => p3processLines c dataCount isSuccessful rest
    | .success => p3processLines c dataCount true rest
    | .error e =>
      if dataCount == 0 then
        match JsonRPCApiClient.rethrowAuthorizationError e c with
        | (c1, true) => ⟨c1, [], dataCount, isSuccessful, some (e, true)⟩
        | (c1, false) => ⟨c1, [], dataCount, isSuccessful, some (e, false)⟩
      else ⟨c, [], dataCount, isSuccessful, some (e, false)⟩
    | .dataEnt v =>
      let r := p3processLines c (dataCount + 1) isSuccessful rest
      { r with fwd := v :: r.fwd }

/-- One attempt of part_003 `requestStream` (the body of `dataToPassThrough`,
lines 315-381 up to its catch): authenticate, stream the attempt lines
through the pipe, and require the success sentinel at end of stream. -/
def p3attempt (loginEnv refreshEnv : Nat → Except RPCError String)
    (lines : List Line) (c : JsonRPCApiClient) :
    JsonRPCApiClient × List Nat × Option (RPCError × Bool) :=
  match JsonRPCApiClient.authenticateRun loginEnv refreshEnv c with
  | (c1, .error e) => (c1, [], some (e, false))
  | (c1, .ok _) =>
    let r := p3processLines c1 0 false lines
    match r.thrown with
    | some ef => (r.client, r.fwd, some ef)
    | none =>
      if r.isSuccessful then (r.client, r.fwd, none)
      else (r.client, r.fwd, some (p3UnexpectedEndErr, false))

/-- Result of a part_003 `requestStream` call: everything written to the
PassThrough, the number of attempts made, and the emitted error if the
stream was failed. -/
structure P3Outcome where
  forwarded : List Nat
  attempts : Nat
  errOf : Option RPCError
  finalClient : JsonRPCApiClient
  deriving Repr, DecidableEq

/-- `requestStream` of part_003 (lines 300-385): run `dataToPassThrough`
with the retry flag set; when the attempt fails with an error marked for
retry, run it once more with the retry flag cleared, so that a second
failure is emitted on the PassThrough. -/
def JsonRPCApiClient.requestStream (c : JsonRPCApiClient) (linesEnv : Nat → List Line)
    (loginEnv refreshEnv : Nat → Except RPCError String) : P3Outcome :=
  match p3attempt loginEnv refreshEnv (linesEnv 0)
      { c with requestCounter := c.requestCounter + 1 } with
  | (c1, fwd1, none) => ⟨fwd1, 1, none, c1⟩
  | (c1, fwd1, some (e, rty)) =>
    if rty then
      match p3attempt loginEnv refreshEnv (linesEnv 1) c1 with
      | (c2, fwd2, none) => ⟨fwd1 ++ fwd2, 2, none, c2⟩
      | (c2, fwd2, some (e2, _)) => ⟨fwd1 ++ fwd2, 2, some e2, c2⟩
    else ⟨fwd1, 1, some e, c1⟩

/-- A remote `token_expired` error envelope, as the mock DMP service of the
test suite returns it. -/
def tokenExpiredRemoteErr : RPCError := ⟨"token_expired", ""⟩

/-- A remote `bad_access_token` error envelope. -/
def badAccessTokenErr : RPCError := ⟨"bad_access_token", ""⟩

/-- A remote `internal_error` error envelope. -/
def internalRemoteErr : RPCError := ⟨"internal_error", ""⟩

/-- A family of part_005 clients in credentials mode, parametrized by the
cached token, the stored auth promise identity, and the two counters; the
concrete runs and the loop invariants below range over this family. -/
def credClientAt (t : Option String) (pr : Option Nat) (i j : Nat) : ZipsceneRPCClient :=
  { server := "http://h", authServer := "http://a", authMethod := .credentials,
    email := some "admin@admin.com", password := some "abc123",
    accessToken := t, authPromise := pr, authRequestCounter := i, requestCounter := j }

/-- A freshly constructed part_005 credentials client: no token cached. -/
def credClient : ZipsceneRPCClient := credClientAt none none 0 0

/-- A part_005 credentials client holding the cached token "T". -/
def cachedClient : ZipsceneRPCClient := credClientAt (some "T") none 0 0

/-- A part_005 client built from a caller-supplied access token. -/
def tokClient : ZipsceneRPCClient :=
  { server := "http://h", authServer := "http://a", authMethod := .token,
    originalAccessToken := some "TOK" }

/-- A part_005 client with `noAuth` set. -/
def noAuthClient : ZipsceneRPCClient :=
  { server := "http://h", authServer := "http://a", authMethod := .noAuth }

/-- A part_003 client with email+password credentials and a cached token. -/
def p3CachedClient : JsonRPCApiClient :=
  { server := "http://h", authServer := "http://h",
    email := some "admin@admin.com", password := some "abc123", accessToken := some "T" }

/-- Request environment answering every attempt with `token_expired`. -/
def alwaysExpired : Nat → RPCResponse := fun _ => .error tokenExpiredRemoteErr

/-- Request environment answering every attempt with the given error. -/
def alwaysError (e : RPCError) : Nat → RPCResponse := fun _ => .error e

/-- Login environment whose every login round trip succeeds with token "T". -/
def loginAlwaysOk : Nat → Except RPCError String := fun _ => .ok "T"

/-- A refresh environment; never reached by the runs below. -/
def refreshUnused : Nat → Except RPCError String := fun _ => .error internalRemoteErr

/-- Forwarded data of a pipe-processing result, whether it threw or not. -/
def forwardedOfProc : Except (PState × RPCError) PState → List Nat
  | .ok st => st.forwarded
  | .error (st, _) => st.forwarded

/-- The payloads of the data envelopes of a line list, in order. -/
def datasOf : List Line → List Nat
  | [] => []
  | .dataEnt v :: rest => v :: datasOf rest
  | _ :: rest => datasOf rest

/-- Whether a line list contains a data envelope. -/
def hasDataLine : List Line → Bool
  | [] => false
  | .dataEnt _ :: _ => true
  | _ :: rest => hasDataLine rest

/-- A line that is neither an error envelope nor the success sentinel. -/
def Line.isBenign : Line → Bool
  | .keepAlive => true
  | .dataEnt _ => true
  | _ => false

/-- Iterate the synchronous part of `authenticate()` (no expired flag) the
given number of times, collecting what each caller gets back; this models N
callers hitting `authenticate` in turn before any network settles. -/
def authCallSeq : Nat → ZipsceneRPCClient → ZipsceneRPCClient × List AuthStart
  | 0, c => (c, [])
  | n + 1, c =>
    let (c1, r) := c.authenticateStart false
    let (c2, rs) := authCallSeq n c1
    (c2, r :: rs)

theorem requestLoop_cond_false (noReauth : Bool) (reqEnv : Nat → RPCResponse)
    (loginEnv : Nat → Except RPCError String) (n : Nat) (s : ReqState)
    (h : requestCond s = false) :
    requestLoop noReauth reqEnv loginEnv n s = requestFinish s := by
  cases n <;> simp [requestLoop, h]

theorem c1_loop : ∀ (n : Nat) (t : Option String) (pr : Option Nat) (i j att re : Nat),
    (t = none ∨ t = some "T") →
    (requestLoop false alwaysExpired loginAlwaysOk n
      { client := credClientAt t pr i j, maxRetries := 1, attempts := att, reauths := re }).attemptsOf
      = att + n
    ∧ (requestLoop false alwaysExpired loginAlwaysOk n
      { client := credClientAt t pr i j, maxRetries := 1, attempts := att, reauths := re }).isOutOfFuel
      = true := by
  intro n
  induction n with
  | zero =>
    intro t pr i j att re ht
    rcases ht with h | h <;> subst h <;> rcases pr with _ | p <;> exact ⟨rfl, rfl⟩
  | succ n ih =>
    intro t pr i j att re ht
    rcases ht with h | h <;> subst h <;> rcases pr with _ | p
    · have hstep : requestLoop false alwaysExpired loginAlwaysOk (n + 1)
          { client := credClientAt none none i j, maxRetries := 1, attempts := att, reauths := re }
        = requestLoop false alwaysExpired loginAlwaysOk n
          { client := credClientAt (some "T") (some (i + 1)) (i + 2) j, maxRetries := 1,
            attempts := att + 1, reauths := re + 1 } := rfl
      rw [hstep]
      have h2 := ih (some "T") (some (i + 1)) (i + 2) j (att + 1) (re + 1) (Or.inr rfl)
      exact ⟨h2.1.trans (by omega), h2.2⟩
    · have hstep : requestLoop false alwaysExpired loginAlwaysOk (n + 1)
          { client := credClientAt none (some p) i j, maxRetries := 1, attempts := att, reauths := re }
        = requestLoop false alwaysExpired loginAlwaysOk n
          { client := credClientAt (some "T") (some (i + 1)) (i + 2) j, maxRetries := 1,
            attempts := att + 1, reauths := re + 1 } := rfl
      rw [hstep]
      have h2 := ih (some "T") (some (i + 1)) (i + 2) j (att + 1) (re + 1) (Or.inr rfl)
      exact ⟨h2.1.trans (by omega), h2.2⟩
    · have hstep : requestLoop false alwaysExpired loginAlwaysOk (n + 1)
          { client := credClientAt (some "T") none i j, maxRetries := 1, attempts := att, reauths := re }
        = requestLoop false alwaysExpired loginAlwaysOk n
          { client := credClientAt (some "T") (some i) (i + 1) j, maxRetries := 1,
            attempts := att + 1, reauths := re + 1 } := rfl
      rw [hstep]
      have h2 := ih (some "T") (some i) (i + 1) j (att + 1) (re + 1) (Or.inr rfl)
      exact ⟨h2.1.trans (by omega), h2.2⟩
    · have hstep : requestLoop false alwaysExpired loginAlwaysOk (n + 1)
          { client := credClientAt (some "T") (some p) i j, maxRetries := 1, attempts := att, reauths := re }
        = requestLoop false alwaysExpired loginAlwaysOk n
          { client := credClientAt (some "T") (some i) (i + 1) j, maxRetries := 1,
            attempts := att + 1, reauths := re + 1 } := rfl
      rw [hstep]
      have h2 := ih (some "T") (some i) (i + 1) j (att + 1) (re + 1) (Or.inr rfl)
      exact ⟨h2.1.trans (by omega), h2.2⟩

/-- Claim C1 counterexample: against a server that answers `token_expired`
on every attempt, a credentials-mode `request` with `maxRetries: 1` does not
make exactly one attempt and surface the error; after fuel for three loop
iterations it has made three HTTP attempts and is still looping. -/
theorem c1_counterexample :
    (ZipsceneRPCClient.request credClient (some 1) false alwaysExpired loginAlwaysOk 3).attemptsOf = 3
    ∧ (ZipsceneRPCClient.request credClient (some 1) false alwaysExpired loginAlwaysOk 3).isOutOfFuel
      = true := ⟨rfl, rfl⟩

/-- Claim C1, amended: in `ZipsceneRPCClient.request` a `token_expired`
response does not consume a retry attempt; it forces a re-authentication and
another attempt unconditionally.  With password credentials whose login
keeps succeeding and a server that always answers `token_expired`, the loop
never terminates (after n units of fuel it has made n attempts and is still
running, for every n), regardless of `maxRetries = 1`.  With a
caller-supplied token, the forced re-authentication itself rejects, so the
request rejects after one attempt with the client-generated `TokenExpired`
error rather than after `maxRetries` attempts with the last received
error. -/
theorem c1_amended :
    (∀ n : Nat,
      (ZipsceneRPCClient.request credClient (some 1) false alwaysExpired loginAlwaysOk n).attemptsOf = n
      ∧ (ZipsceneRPCClient.request credClient (some 1) false alwaysExpired loginAlwaysOk n).isOutOfFuel
        = true)
    ∧ (ZipsceneRPCClient.request tokClient (some 5) false alwaysExpired loginAlwaysOk 10).errOf
      = some providedTokenExpiredErr
    ∧ (ZipsceneRPCClient.request tokClient (some 5) false alwaysExpired loginAlwaysOk 10).attemptsOf
      = 1 := by
  refine ⟨fun n => ?_, rfl, rfl⟩
  have h := c1_loop n none none 0 1 0 0 (Or.inl rfl)
  exact ⟨h.1.trans (by omega), h.2⟩

theorem requestBody_nonauth (e : RPCError) (he : (e.code == "token_expired") = false)
    (k r att re j : Nat) (rerr : Option RPCError) (rres : Option String) :
    requestBody false (alwaysError e) loginAlwaysOk
      { client := credClientAt (some "T") none 0 j, maxRetries := k, retryCount := r,
        requestErr := rerr, requestRes := rres, success := false, attempts := att, reauths := re }
      = .ok { client := credClientAt (some "T") none 0 j, maxRetries := k, retryCount := r + 1,
              requestErr := some e, requestRes := rres, success := false, attempts := att + 1,
              reauths := re } := by
  have hauth : ZipsceneRPCClient.authenticateRun false loginAlwaysOk
      (credClientAt (some "T") none 0 j) = (credClientAt (some "T") none 0 j, .ok (some "T")) := rfl
  simp [requestBody, hauth, alwaysError, he]

theorem requestLoop_nonauth (e : RPCError) (he : (e.code == "token_expired") = false) :
    ∀ (n k r att re j : Nat) (rerr : Option RPCError) (rres : Option String),
    r < k → k - r ≤ n →
    requestLoop false (alwaysError e) loginAlwaysOk n
      { client := credClientAt (some "T") none 0 j, maxRetries := k, retryCount := r,
        requestErr := rerr, requestRes := rres, success := false, attempts := att, reauths := re }
      = .err e { client := credClientAt (some "T") none 0 j, maxRetries := k, retryCount := k,
                 requestErr := some e, requestRes := rres, success := false,
                 attempts := att + (k - r), reauths := re } := by
  intro n
  induction n with
  | zero => intro k r att re j rerr rres hrk hfuel; omega
  | succ n ih =>
    intro k r att re j rerr rres hrk hfuel
    have hcond : requestCond
        { client := credClientAt (some "T") none 0 j, maxRetries := k, retryCount := r,
          requestErr := rerr, requestRes := rres, success := false, attempts := att,
          reauths := re } = true := by
      simp [requestCond]; exact hrk
    rw [requestLoop, if_pos hcond, requestBody_nonauth e he]
    by_cases hlast : r + 1 < k
    · have h2 := ih k (r + 1) (att + 1) re j (some e) rres hlast (by omega)
      have h3 : att + 1 + (k - (r + 1)) = att + (k - r) := by omega
      rw [h3] at h2
      exact h2
    · have hk : r + 1 = k := by omega
      have hcf2 : requestCond
          { client := credClientAt (some "T") none 0 j, maxRetries := k, retryCount := r + 1,
            requestErr := some e, requestRes := rres, success := false, attempts := att + 1,
            reauths := re } = false := by
        simp [requestCond]; omega
      have h4 := requestLoop_cond_false false (alwaysError e) loginAlwaysOk n
        { client := credClientAt (some "T") none 0 j, maxRetries := k, retryCount := r + 1,
          requestErr := some e, requestRes := rres, success := false, attempts := att + 1,
          reauths := re } hcf2
      have h5 : ReqOutcome.err e
          { client := credClientAt (some "T") none 0 j, maxRetries := k, retryCount := r + 1,
            requestErr := some e, requestRes := rres, success := false, attempts := att + 1,
            reauths := re }
          = ReqOutcome.err e
          { client := credClientAt (some "T") none 0 j, maxRetries := k, retryCount := k,
            requestErr := some e, requestRes := rres, success := false,
            attempts := att + (k - r), reauths := re } := by
        have ha : att + 1 = att + (k - r) := by omega
        rw [hk, ha]
      exact h4.trans h5

/-- Claim C3 counterexample: a request answered with `internal_error` (a
non-auth code) on every attempt and `maxRetries: 2` makes two HTTP attempts,
not exactly one: non-auth errors consume retry attempts and are retried. -/
theorem c3_counterexample :
    (ZipsceneRPCClient.request cachedClient (some 2) false (alwaysError internalRemoteErr)
      loginAlwaysOk 5).errOf = some internalRemoteErr
    ∧ (ZipsceneRPCClient.request cachedClient (some 2) false (alwaysError internalRemoteErr)
      loginAlwaysOk 5).attemptsOf = 2 := ⟨rfl, rfl⟩

/-- Claim C3, amended: a JSON-RPC error response with a code other than
`token_expired` consumes one retry attempt; with `maxRetries = k` the loop
makes exactly k attempts and then rejects with the last received error, so
only with the default `maxRetries = 1` is exactly one attempt made. -/
theorem c3_amended (k : Nat) (e : RPCError) (hk : 1 ≤ k) (he : e.code ≠ "token_expired") :
    (ZipsceneRPCClient.request cachedClient (some k) false (alwaysError e) loginAlwaysOk
      (k + 1)).errOf = some e
    ∧ (ZipsceneRPCClient.request cachedClient (some k) false (alwaysError e) loginAlwaysOk
      (k + 1)).attemptsOf = k := by
  obtain ⟨m, rfl⟩ : ∃ m, k = m + 1 := ⟨k - 1, by omega⟩
  have he2 : (e.code == "token_expired") = false := beq_eq_false_iff_ne.mpr he
  have h := requestLoop_nonauth e he2 (m + 2) (m + 1) 0 0 0 1 none none (by omega) (by omega)
  have e0 : ZipsceneRPCClient.request cachedClient (some (m + 1)) false (alwaysError e)
      loginAlwaysOk (m + 1 + 1)
      = requestLoop false (alwaysError e) loginAlwaysOk (m + 2)
        { client := credClientAt (some "T") none 0 1, maxRetries := m + 1, retryCount := 0,
          requestErr := none, requestRes := none, success := false, attempts := 0,
          reauths := 0 } := rfl
  rw [e0, h]
  exact ⟨rfl, by show 0 + (m + 1 - 0) = m + 1; omega⟩

/-- Claim C3 witness: the amended statement at `maxRetries = 2` and the
concrete error code `internal_error`. -/
theorem c3_amended_witness :
    (1 ≤ 2 ∧ internalRemoteErr.code ≠ "token_expired")
    ∧ (ZipsceneRPCClient.request cachedClient (some 2) false (alwaysError internalRemoteErr)
        loginAlwaysOk 3).errOf = some internalRemoteErr
    ∧ (ZipsceneRPCClient.request cachedClient (some 2) false (alwaysError internalRemoteErr)
        loginAlwaysOk 3).attemptsOf = 2 :=
  ⟨⟨by omega, by decide⟩, c3_amended 2 internalRemoteErr (by omega) (by decide)⟩

/-- Claim C4 counterexample: a `bad_access_token` error response does not
trigger the forced re-authentication path of `ZipsceneRPCClient.request`:
the run performs zero re-authentications and rejects with the error like
any other opaque application error. -/
theorem c4_counterexample :
    (ZipsceneRPCClient.request cachedClient (some 1) false (alwaysError badAccessTokenErr)
      loginAlwaysOk 2).errOf = some badAccessTokenErr
    ∧ (ZipsceneRPCClient.request cachedClient (some 1) false (alwaysError badAccessTokenErr)
      loginAlwaysOk 2).reauthsOf = 0
    ∧ (ZipsceneRPCClient.request cachedClient (some 1) false (alwaysError badAccessTokenErr)
      loginAlwaysOk 2).attemptsOf = 1 := ⟨rfl, rfl, rfl⟩

/-- Claim C4, amended: in the retry loop of `ZipsceneRPCClient.request`,
only the code `token_expired` (with `noReauth` unset) triggers the forced
re-authentication path; `bad_access_token` and every other code are passed
through without re-authentication.  `JsonRPCApiClient` differs: its
`_rethrowAuthorizationError` treats exactly `token_expired` and
`bad_access_token` as authorization errors. -/
theorem c4_amended :
    (∀ e : RPCError, e.code ≠ "token_expired" →
      (ZipsceneRPCClient.request cachedClient (some 1) false (alwaysError e) loginAlwaysOk 2).errOf
        = some e
      ∧ (ZipsceneRPCClient.request cachedClient (some 1) false (alwaysError e) loginAlwaysOk
          2).reauthsOf = 0
      ∧ (ZipsceneRPCClient.request cachedClient (some 1) false (alwaysError e) loginAlwaysOk
          2).attemptsOf = 1)
    ∧ (∀ (e : RPCError) (c : JsonRPCApiClient),
        (JsonRPCApiClient.rethrowAuthorizationError e c).2
          = (e.code == "token_expired" || e.code == "bad_access_token"))
    ∧ (ZipsceneRPCClient.request cachedClient (some 1) false alwaysExpired loginAlwaysOk 2).reauthsOf
      = 2
    ∧ (ZipsceneRPCClient.request cachedClient (some 1) false alwaysExpired loginAlwaysOk
      2).isOutOfFuel = true := by
  refine ⟨fun e he => ?_, fun e c => ?_, rfl, rfl⟩
  · have he2 : (e.code == "token_expired") = false := beq_eq_false_iff_ne.mpr he
    have h := requestLoop_nonauth e he2 2 1 0 0 0 1 none none (by omega) (by omega)
    have e0 : ZipsceneRPCClient.request cachedClient (some 1) false (alwaysError e)
        loginAlwaysOk 2
        = requestLoop false (alwaysError e) loginAlwaysOk 2
          { client := credClientAt (some "T") none 0 1, maxRetries := 1, retryCount := 0,
            requestErr := none, requestRes := none, success := false, attempts := 0,
            reauths := 0 } := rfl
    rw [e0, h]
    exact ⟨rfl, rfl, rfl⟩
  · cases h : (e.code == "token_expired" || e.code == "bad_access_token") <;>
      simp [JsonRPCApiClient.rethrowAuthorizationError, h]

/-- Claim C4 witness: the amended statement at the concrete code
`bad_access_token`. -/
theorem c4_amended_witness :
    badAccessTokenErr.code ≠ "token_expired"
    ∧ ((ZipsceneRPCClient.request cachedClient (some 1) false (alwaysError badAccessTokenErr)
        loginAlwaysOk 2).errOf = some badAccessTokenErr
      ∧ (ZipsceneRPCClient.request cachedClient (some 1) false (alwaysError badAccessTokenErr)
          loginAlwaysOk 2).reauthsOf = 0
      ∧ (ZipsceneRPCClient.request cachedClient (some 1) false (alwaysError badAccessTokenErr)
          loginAlwaysOk 2).attemptsOf = 1)
    ∧ (JsonRPCApiClient.rethrowAuthorizationError badAccessTokenErr p3CachedClient).2 = true :=
  ⟨by decide, c4_amended.1 badAccessTokenErr (by decide),
    (c4_amended.2.1 badAccessTokenErr p3CachedClient).trans (by decide)⟩

/-- Claim C2 evaluation at the failing input: when the line stream delivers
a data envelope and then a `token_expired` error envelope,
`ZipsceneRPCClient.requestStream` re-authenticates once and then ends the
output stream cleanly instead of failing it: the error is swallowed and only
the one data object is delivered.  `JsonRPCApiClient.requestStream` on the
same input behaves as the claim states: it fails the stream with that error
after the forwarded data, without restarting. -/
theorem c2_mid_stream_expiry_eval :
    (ZipsceneRPCClient.requestStream cachedClient false
      (fun _ => [Line.dataEnt 0, Line.error tokenExpiredRemoteErr]) loginAlwaysOk 2).isEnded = true
    ∧ (ZipsceneRPCClient.requestStream cachedClient false
      (fun _ => [Line.dataEnt 0, Line.error tokenExpiredRemoteErr]) loginAlwaysOk 2).errOf = none
    ∧ (ZipsceneRPCClient.requestStream cachedClient false
      (fun _ => [Line.dataEnt 0, Line.error tokenExpiredRemoteErr]) loginAlwaysOk 2).forwardedOf
      = [0]
    ∧ (ZipsceneRPCClient.requestStream cachedClient false
      (fun _ => [Line.dataEnt 0, Line.error tokenExpiredRemoteErr]) loginAlwaysOk 2).reauthsOf = 1
    ∧ (ZipsceneRPCClient.requestStream cachedClient false
      (fun _ => [Line.dataEnt 0, Line.error tokenExpiredRemoteErr]) loginAlwaysOk 2).attemptsOf = 1
    ∧ (JsonRPCApiClient.requestStream p3CachedClient
      (fun _ => [Line.dataEnt 0, Line.error tokenExpiredRemoteErr]) loginAlwaysOk
      refreshUnused).errOf = some tokenExpiredRemoteErr
    ∧ (JsonRPCApiClient.requestStream p3CachedClient
      (fun _ => [Line.dataEnt 0, Line.error tokenExpiredRemoteErr]) loginAlwaysOk
      refreshUnused).forwarded = [0]
    ∧ (JsonRPCApiClient.requestStream p3CachedClient
      (fun _ => [Line.dataEnt 0, Line.error tokenExpiredRemoteErr]) loginAlwaysOk
      refreshUnused).attempts = 1 :=
  ⟨rfl, rfl, rfl, rfl, rfl, rfl, rfl, rfl⟩

/-- Claim C5 counterexample: when every attempt of a
`ZipsceneRPCClient.requestStream` call receives a `token_expired` error as
its first envelope, the outer loop is not bounded by two executions: after
fuel for three iterations it has made three attempts (and three
re-authentications) and is still looping. -/
theorem c5_counterexample :
    (ZipsceneRPCClient.requestStream cachedClient false
      (fun _ => [Line.error tokenExpiredRemoteErr]) loginAlwaysOk 3).attemptsOf = 3
    ∧ (ZipsceneRPCClient.requestStream cachedClient false
      (fun _ => [Line.error tokenExpiredRemoteErr]) loginAlwaysOk 3).reauthsOf = 3
    ∧ (ZipsceneRPCClient.requestStream cachedClient false
      (fun _ => [Line.error tokenExpiredRemoteErr]) loginAlwaysOk 3).isOutOfFuel = true :=
  ⟨rfl, rfl, rfl⟩

theorem p3processLines_pos_no_retry : ∀ (lines : List Line) (c : JsonRPCApiClient)
    (dc : Nat) (sf : Bool), 0 < dc →
    ∀ e : RPCError, (p3processLines c dc sf lines).thrown ≠ some (e, true) := by
  intro lines
  induction lines with
  | nil => intro c dc sf hdc e; simp [p3processLines]
  | cons l rest ih =>
    intro c dc sf hdc e
    cases l with
    | keepAlive => simpa [p3processLines] using ih c dc sf hdc e
    | success => simpa [p3processLines] using ih c dc true hdc e
    | dataEnt v =>
      have h := ih c (dc + 1) sf (by omega) e
      simpa [p3processLines] using h
    | error e2 =>
      have hdc2 : (dc == 0) = false := by
        cases dc with
        | zero => omega
        | succ m => rfl
      simp [p3processLines, hdc2]

theorem p3processLines_retry_empty : ∀ (lines : List Line) (c : JsonRPCApiClient)
    (sf : Bool) (e : RPCError),
    (p3processLines c 0 sf lines).thrown = some (e, true) →
    (p3processLines c 0 sf lines).fwd = []
    ∧ (e.code = "token_expired" ∨ e.code = "bad_access_token") := by
  intro lines
  induction lines with
  | nil => intro c sf e h; simp [p3processLines] at h
  | cons l rest ih =>
    intro c sf e h
    cases l with
    | keepAlive =>
      have h2 : (p3processLines c 0 sf rest).thrown = some (e, true) := h
      exact ih c sf e h2
    | success =>
      have h2 : (p3processLines c 0 true rest).thrown = some (e, true) := h
      exact ih c true e h2
    | dataEnt v =>
      exfalso
      have hpos := p3processLines_pos_no_retry rest c 1 sf (by omega) e
      exact hpos h
    | error e2 =>
      cases h2 : (e2.code == "token_expired" || e2.code == "bad_access_token") with
      | true =>
        have h3 : p3processLines c 0 sf (Line.error e2 :: rest)
            = ⟨{ c with accessToken := none }, [], 0, sf, some (e2, true)⟩ := by
          simp [p3processLines, JsonRPCApiClient.rethrowAuthorizationError, h2]
        rw [h3] at h
        simp at h
        rw [h3]
        refine ⟨rfl, ?_⟩
        rw [← h]
        simpa using h2
      | false =>
        exfalso
        have h3 : p3processLines c 0 sf (Line.error e2 :: rest)
            = ⟨c, [], 0, sf, some (e2, false)⟩ := by
          simp [p3processLines, JsonRPCApiClient.rethrowAuthorizationError, h2]
        rw [h3] at h
        simp at h

/-- Claim C5, amended: the at-most-two-attempts bound holds for
`JsonRPCApiClient.requestStream` (part_003): every run makes at most two
attempts; an attempt error is marked for retry only when it arrived before
any data of that attempt and carried an auth code, in which case the failed
attempt forwarded nothing; and when both attempts receive a first-envelope
`token_expired`, the second auth error is surfaced after exactly one
re-authentication (one login call).  `ZipsceneRPCClient.requestStream`
(part_005) has no such bound (see the counterexample). -/
theorem c5_amended :
    (∀ (c : JsonRPCApiClient) (linesEnv : Nat → List Line)
        (loginEnv refreshEnv : Nat → Except RPCError String),
      (JsonRPCApiClient.requestStream c linesEnv loginEnv refreshEnv).attempts ≤ 2)
    ∧ (∀ (lines : List Line) (c : JsonRPCApiClient) (e : RPCError),
        (p3processLines c 0 false lines).thrown = some (e, true) →
        (p3processLines c 0 false lines).fwd = []
        ∧ (e.code = "token_expired" ∨ e.code = "bad_access_token"))
    ∧ (JsonRPCApiClient.requestStream p3CachedClient (fun _ => [Line.error tokenExpiredRemoteErr])
        loginAlwaysOk refreshUnused).errOf = some tokenExpiredRemoteErr
    ∧ (JsonRPCApiClient.requestStream p3CachedClient (fun _ => [Line.error tokenExpiredRemoteErr])
        loginAlwaysOk refreshUnused).attempts = 2
    ∧ (JsonRPCApiClient.requestStream p3CachedClient (fun _ => [Line.error tokenExpiredRemoteErr])
        loginAlwaysOk refreshUnused).forwarded = []
    ∧ (JsonRPCApiClient.requestStream p3CachedClient (fun _ => [Line.error tokenExpiredRemoteErr])
        loginAlwaysOk refreshUnused).finalClient.loginCalls = 1 := by
  refine ⟨?_, fun lines c e h => p3processLines_retry_empty lines c false e h, rfl, rfl, rfl, rfl⟩
  intro c linesEnv loginEnv refreshEnv
  unfold JsonRPCApiClient.requestStream
  rcases h1 : p3attempt loginEnv refreshEnv (linesEnv 0)
      { c with requestCounter := c.requestCounter + 1 } with ⟨c1, fwd1, thr1⟩
  rcases thr1 with _ | ⟨e1, rty1⟩
  · simp [h1, P3Outcome.attempts]
  · cases rty1 with
    | false => simp [h1, P3Outcome.attempts]
    | true =>
      rcases h2 : p3attempt loginEnv refreshEnv (linesEnv 1) c1 with ⟨c2, fwd2, thr2⟩
      rcases thr2 with _ | ⟨e2, rty2⟩ <;> simp [h1, h2, P3Outcome.attempts]

/-- Claim C5 witness: the amended statement at a concrete client and a
stream whose first envelope is a `token_expired` error on both attempts. -/
theorem c5_amended_witness :
    (JsonRPCApiClient.requestStream p3CachedClient (fun _ => [Line.error tokenExpiredRemoteErr])
      loginAlwaysOk refreshUnused).attempts ≤ 2
    ∧ (p3processLines p3CachedClient 0 false [Line.error tokenExpiredRemoteErr]).thrown
      = some (tokenExpiredRemoteErr, true)
    ∧ (p3processLines p3CachedClient 0 false [Line.error tokenExpiredRemoteErr]).fwd = []
    ∧ (tokenExpiredRemoteErr.code = "token_expired"
        ∨ tokenExpiredRemoteErr.code = "bad_access_token") :=
  ⟨c5_amended.1 p3CachedClient (fun _ => [Line.error tokenExpiredRemoteErr]) loginAlwaysOk
      refreshUnused,
    by decide,
    (c5_amended.2.1 [Line.error tokenExpiredRemoteErr] p3CachedClient tokenExpiredRemoteErr
      (by decide)).1,
    (c5_amended.2.1 [Line.error tokenExpiredRemoteErr] p3CachedClient tokenExpiredRemoteErr
      (by decide)).2⟩

theorem processLines_append (xs : List Line) : ∀ (st : PState) (ys : List Line),
    processLines st (xs ++ ys)
      = match processLines st xs with
        | .ok st1 => processLines st1 ys
        | .error r => .error r := by
  induction xs with
  | nil => intro st ys; rfl
  | cons l rest ih =>
    intro st ys
    show processLines st (l :: (rest ++ ys)) = _
    rw [processLines]
    conv_rhs => rw [processLines]
    cases h : processLine st l with
    | ok st1 => exact ih st1 ys
    | error r => rfl

theorem processLines_benign (pre : List Line) : ∀ (st : PState),
    (∀ l ∈ pre, l.isBenign = true) → st.isSuccessful = false →
    processLines st pre
      = .ok ⟨false, st.hasDataOrError || hasDataLine pre, st.forwarded ++ datasOf pre⟩ := by
  induction pre with
  | nil =>
    intro st hb hs
    cases st with
    | mk s d f => simp_all [processLines, hasDataLine, datasOf]
  | cons l rest ih =>
    intro st hb hs
    cases l with
    | keepAlive =>
      have h1 : processLines st (Line.keepAlive :: rest) = processLines st rest := rfl
      rw [h1, ih st (fun l hl => hb l (List.mem_cons_of_mem _ hl)) hs]
      simp [hasDataLine, datasOf]
    | dataEnt v =>
      have h1 : processLines st (Line.dataEnt v :: rest)
          = processLines ⟨st.isSuccessful, true, st.forwarded ++ [v]⟩ rest := by
        rw [processLines, processLine]
        simp [hs]
      rw [h1]
      have h2 := ih ⟨st.isSuccessful, true, st.forwarded ++ [v]⟩
        (fun l hl => hb l (List.mem_cons_of_mem _ hl)) hs
      rw [h2]
      simp [hasDataLine, datasOf]
    | success => exact absurd (hb Line.success (by simp)) (by simp [Line.isBenign])
    | error e => exact absurd (hb (Line.error e) (by simp)) (by simp [Line.isBenign])

theorem processLines_keepAlives (post : List Line) : ∀ (st : PState),
    (∀ l ∈ post, l = Line.keepAlive) → processLines st post = .ok st := by
  induction post with
  | nil => intro st _; rfl
  | cons l rest ih =>
    intro st hk
    have h1 : l = Line.keepAlive := hk l (by simp)
    subst h1
    have h2 : processLines st (Line.keepAlive :: rest) = processLines st rest := rfl
    rw [h2, ih st (fun l hl => hk l (List.mem_cons_of_mem _ hl))]

theorem hasDataLine_of_datas (pre : List Line) (h : datasOf pre ≠ []) :
    hasDataLine pre = true := by
  induction pre with
  | nil => simp [datasOf] at h
  | cons l rest ih =>
    cases l with
    | dataEnt v => rfl
    | keepAlive => exact ih h
    | success => exact ih h
    | error e => exact ih h

theorem streamWhilst_stop (noReauth : Bool) (linesEnv : Nat → List Line)
    (loginEnv : Nat → Except RPCError String) (n : Nat) (ss : SState)
    (h : ss.ps.hasDataOrError = true) :
    streamWhilst noReauth linesEnv loginEnv n ss = .ended ss := by
  cases n <;> simp [streamWhilst, h]

theorem streamWhilst_step (noReauth : Bool) (linesEnv : Nat → List Line)
    (loginEnv : Nat → Except RPCError String) (n : Nat) (ss ss1 : SState)
    (h : ss.ps.hasDataOrError = false)
    (hb : streamBody noReauth linesEnv loginEnv ss = .ok ss1) :
    streamWhilst noReauth linesEnv loginEnv (n + 1) ss
      = streamWhilst noReauth linesEnv loginEnv n ss1 := by
  simp [streamWhilst, h, hb]

theorem streamWhilst_fail (noReauth : Bool) (linesEnv : Nat → List Line)
    (loginEnv : Nat → Except RPCError String) (n : Nat) (ss ss1 : SState) (e : RPCError)
    (h : ss.ps.hasDataOrError = false)
    (hb : streamBody noReauth linesEnv loginEnv ss = .error (e, ss1)) :
    streamWhilst noReauth linesEnv loginEnv (n + 1) ss = .failed e ss1 := by
  simp [streamWhilst, h, hb]

/-- Claim C6 counterexample: a line sequence that ends after the success
sentinel was seen, but in which a data envelope follows the sentinel, does
not end cleanly with all data forwarded: the stream fails with the internal
data-after-success error and only the data preceding the sentinel was
delivered. -/
theorem c6_counterexample :
    (ZipsceneRPCClient.requestStream cachedClient false
      (fun _ => [Line.dataEnt 0, Line.success, Line.dataEnt 1]) loginAlwaysOk 2).errOf
      = some dataAfterSuccessErr
    ∧ (ZipsceneRPCClient.requestStream cachedClient false
      (fun _ => [Line.dataEnt 0, Line.success, Line.dataEnt 1]) loginAlwaysOk 2).forwardedOf
      = [0] := ⟨rfl, rfl⟩

/-- Claim C6, amended: restricted to well-formed streams.  For a line
sequence made of data and keep-alive lines, at least one of them a data
line, followed by the success sentinel and then only keep-alives,
`requestStream` forwards exactly the data payloads in order and ends the
output stream cleanly in one attempt.  For a sequence of data and
keep-alive lines with no sentinel, it forwards the data payloads and then
fails the stream with the unexpected-end error (code `api_client_error`,
message "Never recieved successful end of data for request stream"). -/
theorem c6_amended :
    (∀ pre post : List Line,
      (∀ l ∈ pre, l.isBenign = true) → (∀ l ∈ post, l = Line.keepAlive) → datasOf pre ≠ [] →
      (ZipsceneRPCClient.requestStream cachedClient false
        (fun _ => pre ++ Line.success :: post) loginAlwaysOk 2).isEnded = true
      ∧ (ZipsceneRPCClient.requestStream cachedClient false
        (fun _ => pre ++ Line.success :: post) loginAlwaysOk 2).forwardedOf = datasOf pre
      ∧ (ZipsceneRPCClient.requestStream cachedClient false
        (fun _ => pre ++ Line.success :: post) loginAlwaysOk 2).attemptsOf = 1)
    ∧ (∀ pre : List Line, (∀ l ∈ pre, l.isBenign = true) →
      (ZipsceneRPCClient.requestStream cachedClient false
        (fun _ => pre) loginAlwaysOk 2).errOf = some unexpectedEnd5Err
      ∧ (ZipsceneRPCClient.requestStream cachedClient false
        (fun _ => pre) loginAlwaysOk 2).forwardedOf = datasOf pre) := by
  have hauth : ZipsceneRPCClient.authenticateRun false loginAlwaysOk
      (credClientAt (some "T") none 0 1) = (credClientAt (some "T") none 0 1, .ok (some "T")) := rfl
  constructor
  · intro pre post hb hk hd
    have hpipe : processLines ({} : PState) (pre ++ Line.success :: post)
        = .ok ⟨true, hasDataLine pre, datasOf pre⟩ := by
      rw [processLines_append pre ({} : PState) (Line.success :: post),
        processLines_benign pre ({} : PState) hb rfl]
      show processLines ⟨true, false || hasDataLine pre, [] ++ datasOf pre⟩ post = _
      rw [processLines_keepAlives post _ hk]
      simp
    have hbody : streamBody false (fun _ => pre ++ Line.success :: post) loginAlwaysOk
        { client := credClientAt (some "T") none 0 1 }
        = .ok { client := credClientAt (some "T") none 0 1,
                ps := ⟨true, hasDataLine pre, datasOf pre⟩, attempts := 1, reauths := 0 } := by
      simp only [streamBody, hauth, hpipe]
      simp
    have hd2 : hasDataLine pre = true := hasDataLine_of_datas pre hd
    have hrun : ZipsceneRPCClient.requestStream cachedClient false
        (fun _ => pre ++ Line.success :: post) loginAlwaysOk 2
        = .ended { client := credClientAt (some "T") none 0 1,
                   ps := ⟨true, hasDataLine pre, datasOf pre⟩, attempts := 1, reauths := 0 } := by
      have e0 : ZipsceneRPCClient.requestStream cachedClient false
          (fun _ => pre ++ Line.success :: post) loginAlwaysOk 2
          = streamWhilst false (fun _ => pre ++ Line.success :: post) loginAlwaysOk (1 + 1)
            { client := credClientAt (some "T") none 0 1 } := rfl
      rw [e0, streamWhilst_step false _ loginAlwaysOk 1 _ _ rfl hbody,
        streamWhilst_stop false _ loginAlwaysOk 1 _ hd2]
    refine ⟨?_, ?_, ?_⟩ <;> rw [hrun] <;> rfl
  · intro pre hb
    have hpipe : processLines ({} : PState) pre
        = .ok ⟨false, hasDataLine pre, datasOf pre⟩ := by
      have h := processLines_benign pre ({} : PState) hb rfl
      simpa using h
    have hbeq : (("api_client_error" : String) == "token_expired") = false := rfl
    have hbody : streamBody false (fun _ => pre) loginAlwaysOk
        { client := credClientAt (some "T") none 0 1 }
        = .error (unexpectedEnd5Err,
            { client := credClientAt (some "T") none 0 1,
              ps := ⟨false, true, datasOf pre⟩, attempts := 1, reauths := 0 }) := by
      simp only [streamBody, hauth, hpipe, unexpectedEnd5Err, hbeq]
      simp
    have hrun : ZipsceneRPCClient.requestStream cachedClient false
        (fun _ => pre) loginAlwaysOk 2
        = .failed unexpectedEnd5Err
            { client := credClientAt (some "T") none 0 1,
              ps := ⟨false, true, datasOf pre⟩, attempts := 1, reauths := 0 } := by
      have e0 : ZipsceneRPCClient.requestStream cachedClient false
          (fun _ => pre) loginAlwaysOk 2
          = streamWhilst false (fun _ => pre) loginAlwaysOk (1 + 1)
            { client := credClientAt (some "T") none 0 1 } := rfl
      rw [e0, streamWhilst_fail false _ loginAlwaysOk 1 _ _ _ rfl hbody]
    exact ⟨by rw [hrun]; rfl, by rw [hrun]; rfl⟩

/-- Claim C6 witness: the amended statement at a concrete well-formed
stream with two data lines and interspersed keep-alives, and at a concrete
sentinel-less stream. -/
theorem c6_amended_witness :
    ((ZipsceneRPCClient.requestStream cachedClient false
        (fun _ => [Line.dataEnt 1, Line.keepAlive, Line.dataEnt 2]
          ++ Line.success :: [Line.keepAlive]) loginAlwaysOk 2).isEnded = true
      ∧ (ZipsceneRPCClient.requestStream cachedClient false
        (fun _ => [Line.dataEnt 1, Line.keepAlive, Line.dataEnt 2]
          ++ Line.success :: [Line.keepAlive]) loginAlwaysOk 2).forwardedOf
        = datasOf [Line.dataEnt 1, Line.keepAlive, Line.dataEnt 2]
      ∧ (ZipsceneRPCClient.requestStream cachedClient false
        (fun _ => [Line.dataEnt 1, Line.keepAlive, Line.dataEnt 2]
          ++ Line.success :: [Line.keepAlive]) loginAlwaysOk 2).attemptsOf = 1)
    ∧ (ZipsceneRPCClient.requestStream cachedClient false
        (fun _ => [Line.dataEnt 7]) loginAlwaysOk 2).errOf = some unexpectedEnd5Err
    ∧ (ZipsceneRPCClient.requestStream cachedClient false
        (fun _ => [Line.dataEnt 7]) loginAlwaysOk 2).forwardedOf = datasOf [Line.dataEnt 7] :=
  ⟨c6_amended.1 [Line.dataEnt 1, Line.keepAlive, Line.dataEnt 2] [Line.keepAlive]
      (by intro l hl; fin_cases hl <;> rfl) (by intro l hl; fin_cases hl <;> rfl) (by decide),
    (c6_amended.2 [Line.dataEnt 7] (by intro l hl; fin_cases hl <;> rfl)).1,
    (c6_amended.2 [Line.dataEnt 7] (by intro l hl; fin_cases hl <;> rfl)).2⟩

theorem authCallSeq_pending (n : Nat) : ∀ (c : ZipsceneRPCClient) (p : Nat),
    c.authPromise = some p → c.authPromisePending = true →
    authCallSeq n c = (c, List.replicate n (.samePending p)) := by
  induction n with
  | zero => intro c p h1 h2; simp [authCallSeq]
  | succ n ih =>
    intro c p h1 h2
    have hstart : c.authenticateStart false = (c, .samePending p) := by
      rw [ZipsceneRPCClient.authenticateStart]
      simp [h1, h2]
    rw [authCallSeq, hstart]
    simp [ih c p h1 h2, List.replicate]

/-- Claim C7: single-flight authentication of part_005.  Whenever an
authentication promise is pending, a further call to `authenticate()`
(without the expired flag) returns that same pending promise and leaves the
client state untouched.  Consequently, in a burst of N+1 calls starting
from a credentials client with no cached token and nothing pending, the
first call issues exactly one login request (the auth request counter rises
by exactly one) and every one of the following N calls receives the very
same pending promise, so all callers share the one round trip and its
outcome. -/
theorem c7_single_flight :
    (∀ (c : ZipsceneRPCClient) (p : Nat), c.authPromise = some p → c.authPromisePending = true →
      c.authenticateStart false = (c, .samePending p))
    ∧ (∀ (n : Nat) (c : ZipsceneRPCClient), c.authMethod = .credentials →
        c.authPromisePending = false → truthy c.accessToken = false →
        (authCallSeq (n + 1) c).1.authRequestCounter = c.authRequestCounter + 1
        ∧ (authCallSeq (n + 1) c).2
          = .headLogin c.authRequestCounter
            :: List.replicate n (.samePending c.authRequestCounter)) := by
  constructor
  · intro c p h1 h2
    rw [ZipsceneRPCClient.authenticateStart]
    simp [h1, h2]
  · intro n c hm hp ht
    have hstart : c.authenticateStart false
        = ({ c with authPromisePending := true, authRequestCounter := c.authRequestCounter + 1,
                    authPromise := some c.authRequestCounter },
            .headLogin c.authRequestCounter) := by
      rw [ZipsceneRPCClient.authenticateStart]
      simp [hp, ht, hm]
    have hrest := authCallSeq_pending n
      { c with authPromisePending := true, authRequestCounter := c.authRequestCounter + 1,
               authPromise := some c.authRequestCounter } c.authRequestCounter rfl rfl
    rw [authCallSeq, hstart]
    simp [hrest]

/-- Claim C7 witness: the single-flight statement at a concrete pending
client and a burst of three calls on a fresh credentials client. -/
theorem c7_single_flight_witness :
    ZipsceneRPCClient.authenticateStart false
      { credClient with authPromise := some 7, authPromisePending := true }
      = ({ credClient with authPromise := some 7, authPromisePending := true },
          .samePending 7)
    ∧ (authCallSeq 3 credClient).1.authRequestCounter = 1
    ∧ (authCallSeq 3 credClient).2
      = .headLogin 0 :: List.replicate 2 (.samePending 0) :=
  ⟨c7_single_flight.1 { credClient with authPromise := some 7, authPromisePending := true } 7
      rfl rfl,
    (c7_single_flight.2 2 credClient rfl rfl rfl).1,
    (c7_single_flight.2 2 credClient rfl rfl rfl).2⟩

/-- Claim C8 counterexample: constructing a `ZipsceneRPCClient` (part_005)
with a request server and usable password credentials but no auth server
does not succeed; it fails with `InvalidArgument` instead of defaulting the
auth base URL to the request server. -/
theorem c8_counterexample :
    ZipsceneRPCClient.construct
      { server := some "http://h", email := some "a@b.com", password := some "pw" }
      = .error authServerMissingErr := rfl

/-- Claim C8, amended: the two constructors differ.  `JsonRPCApiClient`
(part_003) accepts a configuration with only the request server and
defaults the auth server to it, so auth URLs are built on the request
server host (with the auth route version).  `ZipsceneRPCClient` (part_005)
requires `authServer` explicitly and construction fails with
`InvalidArgument` whenever it is missing. -/
theorem c8_amended :
    (∀ srv em pw : String, srv ≠ "" →
      ∃ c : JsonRPCApiClient,
        JsonRPCApiClient.construct
          { server := some srv, email := some em, password := some pw } = .ok c
        ∧ c.authServer = srv
        ∧ c.authRouteVersion = 1
        ∧ JsonRPCApiClient.getUrl true c = srv ++ "/v" ++ toString 1 ++ "/jsonrpc")
    ∧ (∀ s : Settings, truthy s.server = true → truthy s.authServer = false →
        ZipsceneRPCClient.construct s = .error authServerMissingErr) := by
  constructor
  · intro srv em pw h
    have hbeq : (srv == "") = false := beq_eq_false_iff_ne.mpr h
    refine ⟨{ server := srv, authServer := srv, email := some em, password := some pw },
      ?_, rfl, rfl, rfl⟩
    rw [JsonRPCApiClient.construct]
    simp [truthy, hbeq]
  · intro s h1 h2
    rw [ZipsceneRPCClient.construct]
    simp [h1, h2]

/-- Claim C8 witness: the amended statement at a concrete configuration. -/
theorem c8_amended_witness :
    (∃ c : JsonRPCApiClient,
      JsonRPCApiClient.construct
        { server := some "http://h", email := some "a@b.com", password := some "pw" } = .ok c
      ∧ c.authServer = "http://h"
      ∧ c.authRouteVersion = 1
      ∧ JsonRPCApiClient.getUrl true c = "http://h" ++ "/v" ++ toString 1 ++ "/jsonrpc")
    ∧ ZipsceneRPCClient.construct
        { server := some "http://h", email := some "a@b.com", password := some "pw" }
      = .error authServerMissingErr :=
  ⟨c8_amended.1 "http://h" "a@b.com" "pw" (by decide),
    c8_amended.2 { server := some "http://h", email := some "a@b.com", password := some "pw" }
      (by decide) (by decide)⟩

/-- Claim C9: the bearer header of part_005.  For every non-empty access
token, `createBearerHeader` produces exactly the value "Bearer " followed by
the base64 encoding of the UTF-8 bytes of the token, so the raw token is
never placed in the header; a missing (or empty, hence falsy) token
produces no Authorization header at all, and a noAuth client resolves
authentication with no token. -/
theorem c9_bearer_header :
    (∀ t : String, t ≠ "" →
      ZipsceneRPCClient.createBearerHeader (some t)
        = some ("Bearer " ++ base64Encode (strBytes t)))
    ∧ ZipsceneRPCClient.createBearerHeader none = none
    ∧ ZipsceneRPCClient.createBearerHeader (some "") = none
    ∧ (∀ (c : ZipsceneRPCClient) (loginEnv : Nat → Except RPCError String),
        c.authMethod = .noAuth → c.authPromisePending = false → truthy c.accessToken = false →
        ZipsceneRPCClient.authenticateRun false loginEnv c = (c, .ok none)) := by
  refine ⟨fun t ht => ?_, rfl, rfl, fun c loginEnv hm hp htk => ?_⟩
  · have hbeq : (t == "") = false := beq_eq_false_iff_ne.mpr ht
    rw [ZipsceneRPCClient.createBearerHeader]
    simp [truthy, hbeq]
  · rw [ZipsceneRPCClient.authenticateRun, ZipsceneRPCClient.authenticateStart]
    simp [hp, htk, hm]

/-- Claim C9 witness: the header statement at two concrete tokens (the
encodings are the exact base64 values Node produces for them) and the
noAuth client. -/
theorem c9_bearer_header_witness :
    ZipsceneRPCClient.createBearerHeader (some "tok") = some "Bearer dG9r"
    ∧ ZipsceneRPCClient.createBearerHeader (some "$an$access$token")
      = some "Bearer JGFuJGFjY2VzcyR0b2tlbg=="
    ∧ ZipsceneRPCClient.authenticateRun false loginAlwaysOk noAuthClient
      = (noAuthClient, .ok none) :=
  ⟨(c9_bearer_header.1 "tok" (by decide)).trans (by rfl),
    (c9_bearer_header.1 "$an$access$token" (by decide)).trans (by rfl),
    c9_bearer_header.2.2.2 noAuthClient loginAlwaysOk rfl rfl rfl⟩

/-- Claim C10: once the success sentinel has been seen during part_005
stream processing, no further data is ever forwarded to the consumer: the
pipe fold from any sentinel-seen state leaves the forwarded sequence
untouched, and a data line in that state fails the pipe immediately with
the internal data-after-success error.  Hence every data object delivered
strictly precedes the sentinel in the line sequence. -/
theorem c10_no_data_after_sentinel : ∀ (lines : List Line) (st : PState),
    st.isSuccessful = true →
    forwardedOfProc (processLines st lines) = st.forwarded
    ∧ (∀ v rest, lines = Line.dataEnt v :: rest →
        processLines st lines = .error ({ st with hasDataOrError := true }, dataAfterSuccessErr)) := by
  intro lines
  induction lines with
  | nil => intro st h; exact ⟨rfl, fun v rest hv => by simp at hv⟩
  | cons l rest ih =>
    intro st h
    constructor
    · cases l with
      | keepAlive =>
        have h1 : processLines st (Line.keepAlive :: rest) = processLines st rest := rfl
        rw [h1]
        exact (ih st h).1
      | success =>
        have hst : ({ st with isSuccessful := true } : PState) = st := by
          cases st
          simp_all
        have h1 : processLines st (Line.success :: rest)
            = processLines { st with isSuccessful := true } rest := rfl
        rw [h1, hst]
        exact (ih st h).1
      | error e =>
        have h1 : processLines st (Line.error e :: rest) = .error (st, e) := rfl
        rw [h1]
        rfl
      | dataEnt v =>
        have h1 : processLines st (Line.dataEnt v :: rest)
            = .error ({ st with hasDataOrError := true }, dataAfterSuccessErr) := by
          rw [processLines, processLine]
          simp [h]
        rw [h1]
        rfl
    · intro v rest2 hv
      cases hv
      rw [processLines, processLine]
      simp [h]

/-- Claim C10 witness: the statement at a sentinel-seen state with one
already-forwarded payload and an incoming data line. -/
theorem c10_no_data_after_sentinel_witness :
    forwardedOfProc (processLines ⟨true, false, [7]⟩ [Line.dataEnt 5]) = [7]
    ∧ processLines ⟨true, false, [7]⟩ [Line.dataEnt 5]
      = .error (⟨true, true, [7]⟩, dataAfterSuccessErr) :=
  ⟨(c10_no_data_after_sentinel [Line.dataEnt 5] ⟨true, false, [7]⟩ rfl).1,
    (c10_no_data_after_sentinel [Line.dataEnt 5] ⟨true, false, [7]⟩ rfl).2 5 [] rfl⟩
